import Mathlib

/-!
SwitchBank plugin (switchbank.c).

A shallow embedding of the grblHAL SwitchBank plugin.  The plugin's file-scope
variables and the part of the host core it touches are fields of one explicit
`State`; every call the plugin makes into the host is appended to the log
`State.calls`, so that "which calls were made, in which order" is a statement
about a list.
-/

namespace SwitchBank

/-! ## Data model -/

/-- Number of slots, `#define N_SWITCHBANK 4`. -/
abbrev N_SWITCHBANK : Nat := 4

/-- A C enum cell: the raw integer value held in the record. -/
abbrev aux_function_t := Nat

/-- Enumerator `MCODE` (first, value 0). -/
abbrev MCODE : aux_function_t := 0
/-- Enumerator `SPINDLE_ACTIVE` (second, value 1). -/
abbrev SPINDLE_ACTIVE : aux_function_t := 1
/-- Enumerator `COOLANT_MIST_ACTIVE` (third, value 2). -/
abbrev COOLANT_MIST_ACTIVE : aux_function_t := 2
/-- Enumerator `COOLANT_FLOOD_ACTIVE` (fourth, value 3). -/
abbrev COOLANT_FLOOD_ACTIVE : aux_function_t := 3

/-- The record `switchbank_settings_t`: `aux_function_t function[N_SWITCHBANK]`. -/
structure switchbank_settings_t where
  function : Fin N_SWITCHBANK → aux_function_t

/-- The value `0xFF` stored in `port[idx]` when a claim fails. -/
abbrev UNCLAIMED : Nat := 0xFF

/-- A function pointer: null, a handler that was installed by the core or by
another plugin (told apart by a number), or one of this plugin's functions. -/
inductive fn_ptr where
  | NULL
  | prior (id : Nat)
  | plugin_reset
  | button_poll_realtime
  | button_poll_delay
  | report_options
  | onSpindleProgrammed
  | onCoolantSetState
  deriving DecidableEq, Repr

/-- The callbacks the plugin hands to `protocol_enqueue_rt_command`. -/
inductive rt_callback where
  | no_ports
  | warning_msg
  deriving DecidableEq, Repr

/-- The host type `spindle_state_t`, declared in grbl/hal.h: the `on` bit (field `on_`
here) and the remaining bits, which the plugin only passes on. -/
structure spindle_state_t where
  on_ : Bool
  other : Nat
  deriving DecidableEq, Repr

/-- The host type `coolant_state_t`, declared in grbl/hal.h: the `flood` and
`mist` bits and the remaining bits, which the plugin only passes on. -/
structure coolant_state_t where
  flood : Bool
  mist : Bool
  other : Nat
  deriving DecidableEq, Repr

/-- One call from the plugin into the host, with its arguments. -/
inductive HostCall where
  | ioports_available
  | ioport_can_claim_explicit
  | ioport_claim (requested : Nat) (description : String)
  | nvs_alloc (size : Nat)
  | settings_register
  | memcpy_to_nvs (destination : Nat) (source : List Nat) (with_checksum : Bool)
  | memcpy_from_nvs (source : Nat) (size : Nat) (with_checksum : Bool)
  | protocol_enqueue_rt_command (cb : rt_callback)
  | digital_out (port : Nat) (level : Bool)
  | stream_write (s : String)
  | driver_reset (f : fn_ptr)
  | on_execute_realtime (f : fn_ptr) (grbl_state : Nat)
  | on_execute_delay (f : fn_ptr) (grbl_state : Nat)
  | on_spindle_programmed (f : fn_ptr) (spindle : Nat) (state : spindle_state_t)
      (rpm : Nat) (mode : Nat)
  | coolant_set_state (f : fn_ptr) (state : coolant_state_t)
  | on_report_options (f : fn_ptr) (newopt : Bool)
  deriving DecidableEq, Repr

/-- The plugin's file-scope variables together with the host state the plugin
reads and writes.

Host answers are inputs: `ioports_available`, `ioport_can_claim_explicit`,
`nvs_alloc` (the address returned, `0` on failure), `claim_answer` (what the
`ioport_claim` made for a slot returns: `none` for `false`, `some h` for `true` with `h`
left in `*port`) and `nvs_transfer_ok` (whether a checksummed read of `size`
bytes at an address of a store reports `NVS_TransferResult_OK`).  A call of
`switchbank_init` or `switchbank_settings_load` claims each slot at most once,
so answers indexed by slot cover every host. -/
structure State where
  can_map_ports : Bool
  n_ports : Nat
  port : Fin N_SWITCHBANK → Nat
  max_port : String
  nvs_address : Nat
  on_report_options : fn_ptr
  plugin_settings : switchbank_settings_t
  driver_reset : fn_ptr
  on_execute_realtime : fn_ptr
  on_execute_delay : fn_ptr
  on_override_changed : fn_ptr
  on_spindle_programmed : fn_ptr
  on_unknown_accessory_override : fn_ptr
  coolant_set_state_ : fn_ptr
  polling_ms : Nat
  grbl_on_report_options : fn_ptr
  grbl_on_execute_realtime : fn_ptr
  grbl_on_execute_delay : fn_ptr
  grbl_on_spindle_programmed : fn_ptr
  hal_coolant_set_state : fn_ptr
  hal_driver_reset : fn_ptr
  nvs : Nat → Nat
  ioports_available : Nat
  ioport_can_claim_explicit : Bool
  claim_answer : Fin N_SWITCHBANK → Option Nat
  nvs_alloc : Nat
  nvs_transfer_ok : (Nat → Nat) → Nat → Nat → Bool
  calls : List HostCall

/-- Record one host call at the end of the log. -/
def State.call (st : State) (c : HostCall) : State :=
  { st with calls := st.calls ++ [c] }

/-- The host calls made between two states of one run. -/
def issued (before after : State) : List HostCall :=
  after.calls.drop before.calls.length

/-- Whether a host call is `hal.port.digital_out`. -/
def HostCall.isDigitalOut : HostCall → Bool
  | .digital_out _ _ => true
  | _ => false

/-- Whether a host call is `hal.stream.write`. -/
def HostCall.isStreamWrite : HostCall → Bool
  | .stream_write _ => true
  | _ => false

/-- Whether a host call invokes a saved handler of an event chain. -/
def HostCall.isForward : HostCall → Bool
  | .driver_reset _ => true
  | .on_execute_realtime _ _ => true
  | .on_execute_delay _ _ => true
  | .on_spindle_programmed _ _ _ _ _ => true
  | .coolant_set_state _ _ => true
  | .on_report_options _ _ => true
  | _ => false

/-! ## Event handlers -/

/-- Function `plugin_reset`: call the next reset handler in the chain. -/
def plugin_reset (st : State) : State :=
  st.call (.driver_reset st.driver_reset)

/-- The loop of `onSpindleProgrammed`, entered with the given `idx`:
`while(idx){ idx--; if(function[idx] == SPINDLE_ACTIVE) digital_out(port[idx], state.on_); }`. -/
def onSpindleProgrammed.loop (state : spindle_state_t) :
    (idx : Nat) → idx ≤ N_SWITCHBANK → State → State
  | 0, _, st => st
  | idx + 1, h, st =>
    onSpindleProgrammed.loop state idx (Nat.le_of_succ_le h)
      (if st.plugin_settings.function ⟨idx, h⟩ = SPINDLE_ACTIVE then
        st.call (.digital_out (st.port ⟨idx, h⟩) state.on_)
      else st)

/-- Function `onSpindleProgrammed`: forward to the saved handler when it is not null,
then sweep the slots from `N_SWITCHBANK - 1` down to `0`. -/
def onSpindleProgrammed (st : State) (spindle : Nat) (state : spindle_state_t)
    (rpm : Nat) (mode : Nat) : State :=
  let st1 :=
    if st.on_spindle_programmed ≠ fn_ptr.NULL then
      st.call (.on_spindle_programmed st.on_spindle_programmed spindle state rpm mode)
    else st
  onSpindleProgrammed.loop state N_SWITCHBANK (Nat.le_refl _) st1

/-- A sweep of `onCoolantSetState`, entered with the given `idx`:
`while(idx){ idx--; if(function[idx] == tag) digital_out(port[idx], level); }`. -/
def onCoolantSetState.loop (tag : aux_function_t) (level : Bool) :
    (idx : Nat) → idx ≤ N_SWITCHBANK → State → State
  | 0, _, st => st
  | idx + 1, h, st =>
    onCoolantSetState.loop tag level idx (Nat.le_of_succ_le h)
      (if st.plugin_settings.function ⟨idx, h⟩ = tag then
        st.call (.digital_out (st.port ⟨idx, h⟩) level)
      else st)

/-- Function `onCoolantSetState`: call the saved handler, then the sweep for
`COOLANT_MIST_ACTIVE` with `state.mist`, then the sweep for
`COOLANT_FLOOD_ACTIVE` with `state.flood`. -/
def onCoolantSetState (st : State) (state : coolant_state_t) : State :=
  let st1 := st.call (.coolant_set_state st.coolant_set_state_ state)
  let st2 := onCoolantSetState.loop COOLANT_MIST_ACTIVE state.mist N_SWITCHBANK (Nat.le_refl _) st1
  onCoolantSetState.loop COOLANT_FLOOD_ACTIVE state.flood N_SWITCHBANK (Nat.le_refl _) st2

/-- The host macro `ASCII_EOL` of grbl/nuts_bolts.h. -/
def ASCII_EOL : String := "\r\n"

/-- Function `report_options`: call the saved handler, then when `newopt` is false
write the plugin line to the stream. -/
def report_options (st : State) (newopt : Bool) : State :=
  let st1 := st.call (.on_report_options st.on_report_options newopt)
  if !newopt then
    st1.call (.stream_write ("[PLUGIN:SwitchBank plugin v0.01]" ++ ASCII_EOL))
  else st1

/-- Function `button_poll_realtime`: call the saved handler (the poll is commented out). -/
def button_poll_realtime (st : State) (grbl_state : Nat) : State :=
  st.call (.on_execute_realtime st.on_execute_realtime grbl_state)

/-- Function `button_poll_delay`: call the saved handler (the poll is commented out). -/
def button_poll_delay (st : State) (grbl_state : Nat) : State :=
  st.call (.on_execute_delay st.on_execute_delay grbl_state)

/-! ## Settings table -/

/-- The radio-button format string shared by the four entries of
`switchbank_settings[]`. -/
def radio_format : String :=
  "M62-M65,Spindle/Laser Enable(M3/M4),Flood Enable (M7),Mist Enable(M8)"

/-- Split a text at its commas; `cur` holds the current piece, reversed. -/
def splitComma : List Char → List Char → List (List Char)
  | [], cur => [cur.reverse]
  | c :: cs, cur =>
    if c = ',' then cur.reverse :: splitComma cs [] else splitComma cs (c :: cur)

/-- The labels of a `Format_RadioButtons` setting: the comma-separated pieces of
its format string; the stored value of the setting is the index of the chosen
label. -/
def radio_labels (format : String) : List String :=
  (splitComma format.data []).map String.mk

/-- The setting identifiers used by the plugin. -/
inductive setting_id_t where
  | Setting_UserDefined_6
  | Setting_UserDefined_7
  | Setting_UserDefined_8
  | Setting_UserDefined_9
  deriving DecidableEq, Repr

/-- An entry of `switchbank_settings[]`: its identifier, its name, its format
string and the cell `&plugin_settings.function[slot]` it edits. -/
structure setting_detail_t where
  id : setting_id_t
  name : String
  format : String
  slot : Fin N_SWITCHBANK

/-- The table `switchbank_settings[]`. -/
def switchbank_settings : List setting_detail_t :=
  [ { id := .Setting_UserDefined_6, name := "Aux Output 0 Function", format := radio_format,
      slot := 0 },
    { id := .Setting_UserDefined_7, name := "Aux Output 1 Function", format := radio_format,
      slot := 1 },
    { id := .Setting_UserDefined_8, name := "Aux Output 2 Function", format := radio_format,
      slot := 2 },
    { id := .Setting_UserDefined_9, name := "Aux Output 3 Function", format := radio_format,
      slot := 3 } ]

/-! ## Non-volatile storage -/

/-- The size of an enum cell, `sizeof(aux_function_t)`: that of `int`, 4 bytes,
on the 32-bit targets of the host. -/
abbrev sizeof_aux_function_t : Nat := 4

/-- The size of the record, `sizeof(switchbank_settings_t)`. -/
abbrev sizeof_switchbank_settings_t : Nat := N_SWITCHBANK * sizeof_aux_function_t

/-- The bytes of one cell, least significant first. -/
def cell_bytes (v : Nat) : List Nat :=
  (List.range sizeof_aux_function_t).map (fun k => v / 256 ^ k % 256)

/-- The cell held by a run of bytes, least significant first. -/
def cell_of_bytes (bs : List Nat) : Nat :=
  bs.foldr (fun b acc => b + 256 * acc) 0

/-- The bytes of the record, `(uint8_t *)&plugin_settings`. -/
def settings_bytes (s : switchbank_settings_t) : List Nat :=
  (List.finRange N_SWITCHBANK).flatMap (fun i => cell_bytes (s.function i))

/-- The record whose bytes are `bs`. -/
def settings_of_bytes (bs : List Nat) : switchbank_settings_t :=
  { function := fun i =>
      cell_of_bytes ((bs.drop (i.val * sizeof_aux_function_t)).take sizeof_aux_function_t) }

/-- Modelled from the spec: the host's persistent storage is not part of this
repository; it "byte-copies a record to/from" a region.  The store after the
bytes `source` are copied to `destination`. -/
def nvs_write (nvs : Nat → Nat) (destination : Nat) (source : List Nat) : Nat → Nat :=
  fun a =>
    if destination ≤ a ∧ a < destination + source.length then source.getD (a - destination) 0
    else nvs a

/-- Modelled from the spec: the `size` bytes of the host's store at `source`. -/
def nvs_read (nvs : Nat → Nat) (source size : Nat) : List Nat :=
  (List.range size).map (fun k => nvs (source + k))

/-- The call `hal.nvs.memcpy_to_nvs(destination, source, size, with_checksum)`.
The checksum the host keeps beside the data is the host's own and shows only
in `nvs_transfer_ok`. -/
def State.memcpy_to_nvs (st : State) (destination : Nat) (source : List Nat)
    (with_checksum : Bool) : State :=
  { st.call (.memcpy_to_nvs destination source with_checksum) with
    nvs := nvs_write st.nvs destination source }

/-- Function `switchbank_settings_save`: write the record to non-volatile storage. -/
def switchbank_settings_save (st : State) : State :=
  st.memcpy_to_nvs st.nvs_address (settings_bytes st.plugin_settings) true

/-- Function `switchbank_settings_restore`: `for(idx = 0; idx < N_SWITCHBANK; idx++)
function[idx] = MCODE`, then write the record to non-volatile storage. -/
def switchbank_settings_restore (st : State) : State :=
  let st1 := (List.finRange N_SWITCHBANK).foldl
    (fun (s : State) idx =>
      { s with plugin_settings :=
          { function := Function.update s.plugin_settings.function idx MCODE } }) st
  st1.memcpy_to_nvs st1.nvs_address (settings_bytes st1.plugin_settings) true

/-- The call `ioport_claim(Port_Digital, Port_Output, &port[idx], description)`:
the host sees the value of `port[idx]`, on success leaves the port number to
use there, and returns whether the claim succeeded. -/
def ioport_claim (st : State) (idx : Fin N_SWITCHBANK) (description : String) : Bool × State :=
  let st1 := st.call (.ioport_claim (st.port idx) description)
  match st.claim_answer idx with
  | some h => (true, { st1 with port := Function.update st1.port idx h })
  | none => (false, st1)

/-- One of the four claims of `switchbank_settings_load`, `idx` being the value
after `idx--`: `port[idx] = idx; if(!ioport_claim(.., &port[idx], ..)) port[idx] = 0xFF;`. -/
def switchbank_settings_load.claim (st : State) (idx : Fin N_SWITCHBANK)
    (description : String) : State :=
  let st1 : State := { st with port := Function.update st.port idx idx.val }
  let r := ioport_claim st1 idx description
  if !r.1 then { r.2 with port := Function.update r.2.port idx UNCLAIMED } else r.2

/-- Function `switchbank_settings_load`: read the record from non-volatile storage (the
bytes are copied whatever the result), restore the defaults when the read does
not report `NVS_TransferResult_OK`, then claim the four ports by index when
`can_map_ports && n_ports >= N_SWITCHBANK`, else enqueue `no_ports`. -/
def switchbank_settings_load (st : State) : State :=
  let st1 : State := { st.call (.memcpy_from_nvs st.nvs_address sizeof_switchbank_settings_t true) with
    plugin_settings := settings_of_bytes (nvs_read st.nvs st.nvs_address sizeof_switchbank_settings_t) }
  let st2 :=
    if st.nvs_transfer_ok st.nvs st.nvs_address sizeof_switchbank_settings_t then st1
    else switchbank_settings_restore st1
  if st2.can_map_ports && decide (st2.n_ports ≥ N_SWITCHBANK) then
    let st3 := switchbank_settings_load.claim st2 3 "SwitchBank 3 pin"
    let st4 := switchbank_settings_load.claim st3 2 "SwitchBank 2 pin"
    let st5 := switchbank_settings_load.claim st4 1 "SwitchBank 1 pin"
    switchbank_settings_load.claim st5 0 "SwitchBank 0 pin"
  else
    st2.call (.protocol_enqueue_rt_command .no_ports)

/-! ## Initialisation -/

/-- The body of the do-while of `switchbank_init`, `idx` being the value after
`idx--`: `if(!(ok = ioport_claim(.., &port[idx], ..))) port[idx] = 0xFF;`.
The first component is the new value of `ok`. -/
def switchbank_init.claim (st : State) (idx : Fin N_SWITCHBANK) : Bool × State :=
  let r := ioport_claim st idx "Switchbank pin"
  if !r.1 then (r.1, { r.2 with port := Function.update r.2.port idx UNCLAIMED }) else r

/-- The do-while of `switchbank_init`, `idx` being the value after `idx--`:
the body runs for `idx`, then the loop goes on while `idx` is not zero. -/
def switchbank_init.loop : (idx : Nat) → idx < N_SWITCHBANK → State → Bool × State
  | 0, h, st => switchbank_init.claim st ⟨0, h⟩
  | k + 1, h, st =>
    switchbank_init.loop k (Nat.lt_of_succ_lt h) (switchbank_init.claim st ⟨k + 1, h⟩).2

/-- The then-branch of the last `if` of `switchbank_init`: register the
settings and hook the plugin's handlers into the chains. -/
def switchbank_init.register (st : State) : State :=
  let st1 := st.call .settings_register
  { st1 with
    max_port := Nat.repr (st1.n_ports - 1)
    on_report_options := st1.grbl_on_report_options
    grbl_on_report_options := fn_ptr.report_options
    on_execute_realtime := st1.grbl_on_execute_realtime
    grbl_on_execute_realtime := fn_ptr.button_poll_realtime
    on_execute_delay := st1.grbl_on_execute_delay
    grbl_on_execute_delay := fn_ptr.button_poll_delay
    on_spindle_programmed := st1.grbl_on_spindle_programmed
    grbl_on_spindle_programmed := fn_ptr.onSpindleProgrammed
    coolant_set_state_ := st1.hal_coolant_set_state
    hal_coolant_set_state := fn_ptr.onCoolantSetState
    driver_reset := st1.hal_driver_reset
    hal_driver_reset := fn_ptr.plugin_reset }

/-- Function `switchbank_init`.  `n_ports` is a `uint8_t`, `ok` the local flag. -/
def switchbank_init (st : State) : State :=
  let st1 : State := { st.call .ioports_available with n_ports := st.ioports_available % 256 }
  let ok := decide (st1.n_ports > N_SWITCHBANK)
  let r : Bool × State :=
    if ok then
      let st2 : State := { st1.call .ioport_can_claim_explicit with
        can_map_ports := st1.ioport_can_claim_explicit }
      if !st2.can_map_ports then
        switchbank_init.loop (N_SWITCHBANK - 1) (by decide) st2
      else (ok, st2)
    else (ok, st1)
  if r.1 then
    let st3 : State := { r.2.call (.nvs_alloc sizeof_switchbank_settings_t) with
      nvs_address := r.2.nvs_alloc }
    if st3.nvs_address ≠ 0 then switchbank_init.register st3
    else st3.call (.protocol_enqueue_rt_command .warning_msg)
  else
    r.2.call (.protocol_enqueue_rt_command .warning_msg)

/-! ## Sample states -/

/-- The state before `switchbank_init`: the plugin's variables are zero, the
host's handler slots hold handlers `prior 1` to `prior 6`, the store is blank
and reads report OK; the host's answers are the arguments. -/
def boot (available : Nat) (explicit : Bool) (claims : Fin N_SWITCHBANK → Option Nat)
    (alloc : Nat) : State :=
  { can_map_ports := false
    n_ports := 0
    port := fun _ => 0
    max_port := ""
    nvs_address := 0
    on_report_options := fn_ptr.NULL
    plugin_settings := { function := fun _ => 0 }
    driver_reset := fn_ptr.NULL
    on_execute_realtime := fn_ptr.NULL
    on_execute_delay := fn_ptr.NULL
    on_override_changed := fn_ptr.NULL
    on_spindle_programmed := fn_ptr.NULL
    on_unknown_accessory_override := fn_ptr.NULL
    coolant_set_state_ := fn_ptr.NULL
    polling_ms := 0
    grbl_on_report_options := fn_ptr.prior 1
    grbl_on_execute_realtime := fn_ptr.prior 2
    grbl_on_execute_delay := fn_ptr.prior 3
    grbl_on_spindle_programmed := fn_ptr.prior 4
    hal_coolant_set_state := fn_ptr.prior 5
    hal_driver_reset := fn_ptr.prior 6
    nvs := fun _ => 0xFF
    ioports_available := available
    ioport_can_claim_explicit := explicit
    claim_answer := claims
    nvs_alloc := alloc
    nvs_transfer_ok := fun _ _ _ => true
    calls := [] }

/-- A running plugin with the given cells and port table: `boot` after a
successful `switchbank_init` on a host with 8 ports and explicit claiming. -/
def running (function port : Fin N_SWITCHBANK → Nat) : State :=
  { switchbank_init (boot 8 true (fun _ => none) 100) with
    plugin_settings := { function := function }
    port := port
    calls := [] }

/-! ## Vocabulary of the statements -/

/-- The slots visited by a sweep entered with `idx`: `idx - 1` down to `0`. -/
def slotsBelow : (idx : Nat) → idx ≤ N_SWITCHBANK → List (Fin N_SWITCHBANK)
  | 0, _ => []
  | idx + 1, h => ⟨idx, h⟩ :: slotsBelow idx (Nat.le_of_succ_le h)

/-- The writes `digital_out(port[i], level)` for the listed slots whose cell
holds `tag`, in list order. -/
def writesFor (st : State) (tag : aux_function_t) (level : Bool)
    (slots : List (Fin N_SWITCHBANK)) : List HostCall :=
  (slots.filter (fun i => decide (st.plugin_settings.function i = tag))).map
    (fun i => HostCall.digital_out (st.port i) level)

/-- Whether a host call is `ioport_claim`. -/
def HostCall.isPortClaim : HostCall → Bool
  | .ioport_claim _ _ => true
  | _ => false

/-- Whether a host call is `protocol_enqueue_rt_command`. -/
def HostCall.isEnqueue : HostCall → Bool
  | .protocol_enqueue_rt_command _ => true
  | _ => false

/-- What a claim leaves in `port[idx]`: the host's handle, or `0xFF`. -/
def claimedPort (answer : Fin N_SWITCHBANK → Option Nat) (idx : Fin N_SWITCHBANK) : Nat :=
  match answer idx with
  | some h => h
  | none => UNCLAIMED

/-! ## Helper lemmas on the sweeps -/

theorem slotsBelow_all : slotsBelow N_SWITCHBANK (Nat.le_refl _) = (List.finRange N_SWITCHBANK).reverse := by
  decide

theorem mem_slotsBelow_all (i : Fin N_SWITCHBANK) : i ∈ slotsBelow N_SWITCHBANK (Nat.le_refl _) := by
  rw [slotsBelow_all]; simp

theorem writesFor_call (st : State) (c : HostCall) (tag : aux_function_t) (level : Bool)
    (slots : List (Fin N_SWITCHBANK)) :
    writesFor (st.call c) tag level slots = writesFor st tag level slots := rfl

theorem writesFor_all_digital (st : State) (tag : aux_function_t) (level : Bool)
    (slots : List (Fin N_SWITCHBANK)) :
    ∀ c ∈ writesFor st tag level slots, c.isDigitalOut = true := by
  intro c hc
  simp only [writesFor, List.mem_map] at hc
  obtain ⟨i, _, rfl⟩ := hc
  rfl

theorem coolant_loop_eq (tag : aux_function_t) (level : Bool) :
    ∀ (idx : Nat) (h : idx ≤ N_SWITCHBANK) (st : State),
      onCoolantSetState.loop tag level idx h st =
        { st with calls := st.calls ++ writesFor st tag level (slotsBelow idx h) } := by
  intro idx
  induction idx with
  | zero => intro h st; simp [onCoolantSetState.loop, slotsBelow, writesFor]
  | succ n ih =>
    intro h st
    rw [onCoolantSetState.loop, ih]
    by_cases hc : st.plugin_settings.function ⟨n, h⟩ = tag
    · simp [hc, State.call, writesFor, slotsBelow, List.filter_cons]
    · simp [hc, writesFor, slotsBelow, List.filter_cons]

theorem spindle_loop_eq (state : spindle_state_t) :
    ∀ (idx : Nat) (h : idx ≤ N_SWITCHBANK) (st : State),
      onSpindleProgrammed.loop state idx h st =
        { st with calls := st.calls ++ writesFor st SPINDLE_ACTIVE state.on_ (slotsBelow idx h) } := by
  intro idx
  induction idx with
  | zero => intro h st; simp [onSpindleProgrammed.loop, slotsBelow, writesFor]
  | succ n ih =>
    intro h st
    rw [onSpindleProgrammed.loop, ih]
    by_cases hc : st.plugin_settings.function ⟨n, h⟩ = SPINDLE_ACTIVE
    · simp [hc, State.call, writesFor, slotsBelow, List.filter_cons]
    · simp [hc, writesFor, slotsBelow, List.filter_cons]

/-- The calls made by `onSpindleProgrammed`: the forward when the saved handler
is not null, then the sweep's writes. -/
theorem issued_onSpindleProgrammed (st : State) (spindle : Nat) (state : spindle_state_t)
    (rpm mode : Nat) :
    issued st (onSpindleProgrammed st spindle state rpm mode) =
      (if st.on_spindle_programmed ≠ fn_ptr.NULL then
        [HostCall.on_spindle_programmed st.on_spindle_programmed spindle state rpm mode]
       else []) ++
      writesFor st SPINDLE_ACTIVE state.on_ (slotsBelow N_SWITCHBANK (Nat.le_refl _)) := by
  unfold issued onSpindleProgrammed
  rw [spindle_loop_eq]
  by_cases hn : st.on_spindle_programmed = fn_ptr.NULL
  · simp [hn]
  · simp [hn, State.call, writesFor]

/-- The calls made by `onCoolantSetState`: the forward, the mist sweep's writes,
the flood sweep's writes. -/
theorem issued_onCoolantSetState (st : State) (state : coolant_state_t) :
    issued st (onCoolantSetState st state) =
      HostCall.coolant_set_state st.coolant_set_state_ state ::
        (writesFor st COOLANT_MIST_ACTIVE state.mist (slotsBelow N_SWITCHBANK (Nat.le_refl _)) ++
         writesFor st COOLANT_FLOOD_ACTIVE state.flood (slotsBelow N_SWITCHBANK (Nat.le_refl _))) := by
  unfold issued onCoolantSetState
  simp only [coolant_loop_eq]
  simp [State.call, writesFor]

theorem filter_digital_writesFor (st : State) (tag : aux_function_t) (level : Bool)
    (slots : List (Fin N_SWITCHBANK)) :
    (writesFor st tag level slots).filter HostCall.isDigitalOut = writesFor st tag level slots :=
  List.filter_eq_self.mpr (writesFor_all_digital st tag level slots)

theorem issued_plugin_reset (st : State) :
    issued st (plugin_reset st) = [HostCall.driver_reset st.driver_reset] := by
  simp [issued, plugin_reset, State.call]

theorem issued_report_options (st : State) (newopt : Bool) :
    issued st (report_options st newopt) =
      HostCall.on_report_options st.on_report_options newopt ::
        (if newopt then []
         else [HostCall.stream_write ("[PLUGIN:SwitchBank plugin v0.01]" ++ ASCII_EOL)]) := by
  cases newopt <;> simp [issued, report_options, State.call]

theorem mem_writesFor_iff (st : State) (tag : aux_function_t) (level : Bool) (p : Nat) (b : Bool) :
    HostCall.digital_out p b ∈ writesFor st tag level (slotsBelow N_SWITCHBANK (Nat.le_refl _)) ↔
      ∃ i, st.plugin_settings.function i = tag ∧ st.port i = p ∧ level = b := by
  simp only [writesFor, List.mem_map, List.mem_filter, decide_eq_true_eq, mem_slotsBelow_all,
    true_and, HostCall.digital_out.injEq]

/-! ## Event handlers: the claims -/

/-- C1: the digital-output writes made by `onSpindleProgrammed` are, in this
order, one write of `state.on` to `port[i]` for each slot `i` whose cell holds
`SPINDLE_ACTIVE`, taking the slots from the highest index (3) down to 0; no
other digital-output write is made. -/
theorem onSpindleProgrammed_writes (st : State) (spindle : Nat) (state : spindle_state_t)
    (rpm mode : Nat) :
    (issued st (onSpindleProgrammed st spindle state rpm mode)).filter HostCall.isDigitalOut =
        (((List.finRange N_SWITCHBANK).reverse.filter
            (fun i => decide (st.plugin_settings.function i = SPINDLE_ACTIVE))).map
          (fun i => HostCall.digital_out (st.port i) state.on_)) ∧
      (List.finRange N_SWITCHBANK).reverse = [3, 2, 1, 0] := by
  refine ⟨?_, by decide⟩
  rw [issued_onSpindleProgrammed, List.filter_append, filter_digital_writesFor, writesFor,
    slotsBelow_all]
  by_cases hn : st.on_spindle_programmed = fn_ptr.NULL
  · simp [hn]
  · simp [hn, HostCall.isDigitalOut]

/-- C2: the digital-output writes made by `onCoolantSetState` are one write of
`state.mist` to `port[i]` for each slot holding `COOLANT_MIST_ACTIVE`, followed
by one write of `state.flood` to `port[i]` for each slot holding
`COOLANT_FLOOD_ACTIVE` (each sweep from slot 3 down to 0), and nothing else, so
slots holding `MCODE` or `SPINDLE_ACTIVE` get no write.  When every slot holds
`MCODE` no write is made; when slot 2 holds `COOLANT_FLOOD_ACTIVE`, no other
slot holds a coolant tag and `flood` is true, the only write is
`digital_out(port[2], true)`. -/
theorem onCoolantSetState_writes (st : State) (state : coolant_state_t) :
    (issued st (onCoolantSetState st state)).filter HostCall.isDigitalOut =
        (((List.finRange N_SWITCHBANK).reverse.filter
            (fun i => decide (st.plugin_settings.function i = COOLANT_MIST_ACTIVE))).map
          (fun i => HostCall.digital_out (st.port i) state.mist)) ++
        (((List.finRange N_SWITCHBANK).reverse.filter
            (fun i => decide (st.plugin_settings.function i = COOLANT_FLOOD_ACTIVE))).map
          (fun i => HostCall.digital_out (st.port i) state.flood)) ∧
      ((∀ i, st.plugin_settings.function i = MCODE) →
        (issued st (onCoolantSetState st state)).filter HostCall.isDigitalOut = []) ∧
      (st.plugin_settings.function 2 = COOLANT_FLOOD_ACTIVE →
        (∀ i, i ≠ 2 → st.plugin_settings.function i ≠ COOLANT_MIST_ACTIVE ∧
          st.plugin_settings.function i ≠ COOLANT_FLOOD_ACTIVE) →
        state.flood = true →
        (issued st (onCoolantSetState st state)).filter HostCall.isDigitalOut =
          [HostCall.digital_out (st.port 2) true]) := by
  have key : (issued st (onCoolantSetState st state)).filter HostCall.isDigitalOut =
      (((List.finRange N_SWITCHBANK).reverse.filter
          (fun i => decide (st.plugin_settings.function i = COOLANT_MIST_ACTIVE))).map
        (fun i => HostCall.digital_out (st.port i) state.mist)) ++
      (((List.finRange N_SWITCHBANK).reverse.filter
          (fun i => decide (st.plugin_settings.function i = COOLANT_FLOOD_ACTIVE))).map
        (fun i => HostCall.digital_out (st.port i) state.flood)) := by
    rw [issued_onCoolantSetState, List.filter_cons, List.filter_append, filter_digital_writesFor,
      filter_digital_writesFor, writesFor, writesFor, slotsBelow_all]
    simp [HostCall.isDigitalOut]
  have hrev : (List.finRange N_SWITCHBANK).reverse = [3, 2, 1, 0] := by decide
  refine ⟨key, ?_, ?_⟩
  · intro hall
    rw [key, hrev]
    simp [List.filter_cons, hall]
  · intro h2 hothers hflood
    rw [key, hrev]
    have h3 := hothers 3 (by decide)
    have h1 := hothers 1 (by decide)
    have h0 := hothers 0 (by decide)
    simp [List.filter_cons, h2, h3.1, h3.2, h1.1, h1.2, h0.1, h0.2, hflood]

/-- Witness for C2 on a running plugin whose slot 2 holds
`COOLANT_FLOOD_ACTIVE` and whose other slots hold `MCODE` and `SPINDLE_ACTIVE`. -/
theorem onCoolantSetState_writes_witness :
    (issued (running ![0, 1, 3, 0] ![0, 1, 2, 3])
        (onCoolantSetState (running ![0, 1, 3, 0] ![0, 1, 2, 3])
          { flood := true, mist := true, other := 0 })).filter HostCall.isDigitalOut =
      [HostCall.digital_out 2 true] :=
  (onCoolantSetState_writes (running ![0, 1, 3, 0] ![0, 1, 2, 3])
    { flood := true, mist := true, other := 0 }).2.2 (by decide) (by decide) rfl

/-- C3, as stated, fails: with slot 0 holding `SPINDLE_ACTIVE` and `port[0]`
the unclaimed value `0xFF`, `onSpindleProgrammed` calls `digital_out(0xFF, true)`;
with slot 1 holding `COOLANT_FLOOD_ACTIVE` and `port[1] = 0xFF`,
`onCoolantSetState` calls `digital_out(0xFF, true)`. -/
theorem unclaimed_slot_is_written :
    (running ![1, 3, 0, 0] ![0xFF, 0xFF, 2, 3]).port 0 = UNCLAIMED ∧
      HostCall.digital_out UNCLAIMED true ∈
        issued (running ![1, 3, 0, 0] ![0xFF, 0xFF, 2, 3])
          (onSpindleProgrammed (running ![1, 3, 0, 0] ![0xFF, 0xFF, 2, 3]) 0
            { on_ := true, other := 0 } 0 0) ∧
      (running ![1, 3, 0, 0] ![0xFF, 0xFF, 2, 3]).port 1 = UNCLAIMED ∧
      HostCall.digital_out UNCLAIMED true ∈
        issued (running ![1, 3, 0, 0] ![0xFF, 0xFF, 2, 3])
          (onCoolantSetState (running ![1, 3, 0, 0] ![0xFF, 0xFF, 2, 3])
            { flood := true, mist := false, other := 0 }) := by
  decide

/-- C3, amended: the handlers do not look at the port handle.  A write with the
unclaimed handle `0xFF` is made by `onSpindleProgrammed` exactly when some slot
with `port[i] = 0xFF` holds `SPINDLE_ACTIVE`, and by `onCoolantSetState` exactly
when some slot with `port[i] = 0xFF` holds `COOLANT_MIST_ACTIVE` or
`COOLANT_FLOOD_ACTIVE`; an unclaimed slot whose tag does not match the event
produces no write. -/
theorem unclaimed_written_iff_tag_matches (st : State) (spindle : Nat)
    (sstate : spindle_state_t) (rpm mode : Nat) (cstate : coolant_state_t) :
    ((∃ b, HostCall.digital_out UNCLAIMED b ∈
          issued st (onSpindleProgrammed st spindle sstate rpm mode)) ↔
        ∃ i, st.port i = UNCLAIMED ∧ st.plugin_settings.function i = SPINDLE_ACTIVE) ∧
      ((∃ b, HostCall.digital_out UNCLAIMED b ∈ issued st (onCoolantSetState st cstate)) ↔
        ∃ i, st.port i = UNCLAIMED ∧
          (st.plugin_settings.function i = COOLANT_MIST_ACTIVE ∨
            st.plugin_settings.function i = COOLANT_FLOOD_ACTIVE)) := by
  constructor
  · rw [issued_onSpindleProgrammed]
    have hfwd : ∀ b, HostCall.digital_out UNCLAIMED b ∉
        (if st.on_spindle_programmed ≠ fn_ptr.NULL then
          [HostCall.on_spindle_programmed st.on_spindle_programmed spindle sstate rpm mode]
         else []) := by
      intro b; split <;> simp
    simp only [List.mem_append, hfwd, false_or, mem_writesFor_iff]
    constructor
    · rintro ⟨b, i, hf, hp, _⟩; exact ⟨i, hp, hf⟩
    · rintro ⟨i, hp, hf⟩; exact ⟨sstate.on_, i, hf, hp, rfl⟩
  · rw [issued_onCoolantSetState]
    simp only [List.mem_cons, List.mem_append, mem_writesFor_iff, false_or, reduceCtorEq]
    constructor
    · rintro ⟨b, h | h⟩
      · obtain ⟨i, hf, hp, _⟩ := h; exact ⟨i, hp, Or.inl hf⟩
      · obtain ⟨i, hf, hp, _⟩ := h; exact ⟨i, hp, Or.inr hf⟩
    · rintro ⟨i, hp, hf | hf⟩
      · exact ⟨cstate.mist, Or.inl ⟨i, hf, hp, rfl⟩⟩
      · exact ⟨cstate.flood, Or.inr ⟨i, hf, hp, rfl⟩⟩

/-- C9: every handler forwards before it acts.  The calls made by
`plugin_reset` are the call of the saved reset handler alone; those of
`onSpindleProgrammed`, when a handler was saved (the pointer is not null), are
the call of the saved handler with the event's own arguments followed by
digital-output writes only (with a null pointer there is nothing to forward to
and only the writes are made); those of `onCoolantSetState` are the call of the
saved handler with the event's state followed by digital-output writes only;
those of `report_options` are the call of the saved handler with `newopt`
followed by stream writes only. -/
theorem chain_then_act (st : State) (spindle : Nat) (sstate : spindle_state_t)
    (rpm mode : Nat) (cstate : coolant_state_t) (newopt : Bool) :
    issued st (plugin_reset st) = [HostCall.driver_reset st.driver_reset] ∧
      (st.on_spindle_programmed ≠ fn_ptr.NULL →
        ∃ acts, issued st (onSpindleProgrammed st spindle sstate rpm mode) =
            HostCall.on_spindle_programmed st.on_spindle_programmed spindle sstate rpm mode ::
              acts ∧
          ∀ c ∈ acts, c.isDigitalOut = true) ∧
      (st.on_spindle_programmed = fn_ptr.NULL →
        ∀ c ∈ issued st (onSpindleProgrammed st spindle sstate rpm mode),
          c.isDigitalOut = true) ∧
      (∃ acts, issued st (onCoolantSetState st cstate) =
          HostCall.coolant_set_state st.coolant_set_state_ cstate :: acts ∧
        ∀ c ∈ acts, c.isDigitalOut = true) ∧
      (∃ acts, issued st (report_options st newopt) =
          HostCall.on_report_options st.on_report_options newopt :: acts ∧
        ∀ c ∈ acts, c.isStreamWrite = true) := by
  refine ⟨issued_plugin_reset st, ?_, ?_, ?_, ?_⟩
  · intro hn
    refine ⟨writesFor st SPINDLE_ACTIVE sstate.on_ (slotsBelow N_SWITCHBANK (Nat.le_refl _)),
      ?_, writesFor_all_digital st SPINDLE_ACTIVE sstate.on_ _⟩
    rw [issued_onSpindleProgrammed, if_pos hn]; rfl
  · intro hn c hc
    rw [issued_onSpindleProgrammed] at hc
    simp only [hn, ne_eq, not_true_eq_false, if_false, List.nil_append] at hc
    exact writesFor_all_digital st SPINDLE_ACTIVE sstate.on_ _ c hc
  · refine ⟨_, issued_onCoolantSetState st cstate, ?_⟩
    intro c hc
    rcases List.mem_append.mp hc with h | h
    · exact writesFor_all_digital _ _ _ _ c h
    · exact writesFor_all_digital _ _ _ _ c h
  · refine ⟨_, issued_report_options st newopt, ?_⟩
    intro c hc
    cases newopt
    · simp only [Bool.false_eq_true, if_false, List.mem_singleton] at hc
      subst hc; rfl
    · simp at hc

/-- Witness for C9 on a running plugin, whose saved spindle handler is the
host's `prior 4`: the forward comes first and two writes follow. -/
theorem chain_then_act_witness :
    ∃ acts, issued (running ![1, 0, 1, 2] ![0, 1, 2, 3])
        (onSpindleProgrammed (running ![1, 0, 1, 2] ![0, 1, 2, 3]) 7
          { on_ := true, other := 0 } 1000 0) =
        HostCall.on_spindle_programmed (fn_ptr.prior 4) 7 { on_ := true, other := 0 } 1000 0 ::
          acts ∧
      ∀ c ∈ acts, c.isDigitalOut = true :=
  (chain_then_act (running ![1, 0, 1, 2] ![0, 1, 2, 3]) 7 { on_ := true, other := 0 } 1000 0
    { flood := false, mist := false, other := 0 } false).2.1 (by decide)

/-! ## Helper lemmas on storage and claiming -/

theorem load_claim_eq (st : State) (idx : Fin N_SWITCHBANK) (d : String) :
    switchbank_settings_load.claim st idx d =
      { st with
        port := Function.update st.port idx (claimedPort st.claim_answer idx)
        calls := st.calls ++ [HostCall.ioport_claim idx.val d] } := by
  unfold switchbank_settings_load.claim ioport_claim claimedPort
  cases h : st.claim_answer idx <;> simp [State.call, h]

theorem init_claim_eq (st : State) (idx : Fin N_SWITCHBANK) :
    switchbank_init.claim st idx =
      ((st.claim_answer idx).isSome,
        { st with
          port := Function.update st.port idx (claimedPort st.claim_answer idx)
          calls := st.calls ++ [HostCall.ioport_claim (st.port idx) "Switchbank pin"] }) := by
  unfold switchbank_init.claim ioport_claim claimedPort
  cases h : st.claim_answer idx <;> simp [State.call, h]

theorem restore_fold_eq (l : List (Fin N_SWITCHBANK)) :
    ∀ st : State,
      l.foldl (fun (s : State) idx =>
          { s with plugin_settings :=
              { function := Function.update s.plugin_settings.function idx MCODE } }) st =
        { st with plugin_settings :=
            { function := l.foldl (fun f idx => Function.update f idx MCODE)
                st.plugin_settings.function } } := by
  induction l with
  | nil => intro st; rfl
  | cons a l ih => intro st; simp only [List.foldl_cons]; rw [ih]

theorem fold_update_MCODE (l : List (Fin N_SWITCHBANK)) :
    ∀ (f : Fin N_SWITCHBANK → aux_function_t) (i : Fin N_SWITCHBANK),
      (i ∈ l ∨ f i = MCODE) → l.foldl (fun f idx => Function.update f idx MCODE) f i = MCODE := by
  induction l with
  | nil => intro f i h; simpa using h
  | cons a l ih =>
    intro f i h
    simp only [List.foldl_cons]
    apply ih
    by_cases hia : i = a
    · right; subst hia; simp
    · rcases h with h | h
      · left; simpa [hia] using h
      · right; simpa [Function.update_noteq hia] using h

theorem restore_eq (st : State) :
    switchbank_settings_restore st =
      { st with
        plugin_settings := { function := fun _ => MCODE }
        nvs := nvs_write st.nvs st.nvs_address (settings_bytes { function := fun _ => MCODE })
        calls := st.calls ++
          [HostCall.memcpy_to_nvs st.nvs_address (settings_bytes { function := fun _ => MCODE })
            true] } := by
  have hf : (List.finRange N_SWITCHBANK).foldl (fun f idx => Function.update f idx MCODE)
      st.plugin_settings.function = fun _ => MCODE := by
    funext i
    exact fold_update_MCODE _ _ i (Or.inl (List.mem_finRange i))
  unfold switchbank_settings_restore
  simp only [restore_fold_eq, hf, State.memcpy_to_nvs, State.call]

theorem nvs_read_write (nvs : Nat → Nat) (a : Nat) (bs : List Nat) :
    nvs_read (nvs_write nvs a bs) a bs.length = bs := by
  apply List.ext_getElem
  · simp [nvs_read]
  · intro k h1 h2
    simp only [nvs_read, List.getElem_map, List.getElem_range, nvs_write]
    have hk : k < bs.length := h2
    simp [hk, List.getD_eq_getElem]

theorem settings_bytes_length (s : switchbank_settings_t) :
    (settings_bytes s).length = sizeof_switchbank_settings_t := by
  show (settings_bytes s).length = 16
  simp [settings_bytes, cell_bytes, List.finRange, List.flatMap, List.pmap, List.range,
    List.range.loop]

theorem cell_of_bytes_bytes (v : Nat) (hv : v < 4294967296) :
    cell_of_bytes [v % 256, v / 256 % 256, v / 65536 % 256, v / 16777216 % 256] = v := by
  simp only [cell_of_bytes, List.foldr]
  omega

theorem settings_of_bytes_bytes (s : switchbank_settings_t)
    (hcells : ∀ i, s.function i < 2 ^ (8 * sizeof_aux_function_t)) :
    settings_of_bytes (settings_bytes s) = s := by
  cases s with
  | mk f =>
    simp only [settings_of_bytes, switchbank_settings_t.mk.injEq]
    funext i
    have hb : settings_bytes { function := f } =
        cell_bytes (f 0) ++ (cell_bytes (f 1) ++ (cell_bytes (f 2) ++ (cell_bytes (f 3) ++ []))) :=
      rfl
    have hc : ∀ v, cell_bytes v =
        [v % 256, v / 256 % 256, v / 65536 % 256, v / 16777216 % 256] := by
      intro v
      simp [cell_bytes, List.range, List.range.loop]
    rw [hb]
    simp only [hc]
    obtain ⟨k, hk⟩ := i
    interval_cases k
    · exact cell_of_bytes_bytes _ (hcells 0)
    · exact cell_of_bytes_bytes _ (hcells 1)
    · exact cell_of_bytes_bytes _ (hcells 2)
    · exact cell_of_bytes_bytes _ (hcells 3)

theorem update_all_slots (p : Fin N_SWITCHBANK → Nat) (v : Fin N_SWITCHBANK → Nat) :
    Function.update (Function.update (Function.update (Function.update p 3 (v 3)) 2 (v 2)) 1
      (v 1)) 0 (v 0) = v := by
  funext i
  fin_cases i <;> rfl

theorem init_loop_eq (st : State) :
    switchbank_init.loop (N_SWITCHBANK - 1) (by decide) st =
      ((st.claim_answer 0).isSome,
        { st with
          port := claimedPort st.claim_answer
          calls := st.calls ++
            [HostCall.ioport_claim (st.port 3) "Switchbank pin",
             HostCall.ioport_claim (st.port 2) "Switchbank pin",
             HostCall.ioport_claim (st.port 1) "Switchbank pin",
             HostCall.ioport_claim (st.port 0) "Switchbank pin"] }) := by
  show switchbank_init.claim (switchbank_init.claim (switchbank_init.claim
    (switchbank_init.claim st 3).2 2).2 1).2 0 = _
  rw [init_claim_eq st 3]
  rw [init_claim_eq _ 2]
  rw [init_claim_eq _ 1]
  rw [init_claim_eq _ 0]
  simp only [update_all_slots, List.append_assoc, List.singleton_append]
  rfl

/-! ## Settings persistence: the claims -/

/-- C7: after `switchbank_settings_restore`, whatever the record and the store
held before, every slot's cell is `MCODE` and the `sizeof(switchbank_settings_t)`
bytes of the store at `nvs_address` are the bytes of the in-memory record. -/
theorem restore_sets_MCODE_and_persists (st : State) :
    (∀ i, (switchbank_settings_restore st).plugin_settings.function i = MCODE) ∧
      nvs_read (switchbank_settings_restore st).nvs (switchbank_settings_restore st).nvs_address
          sizeof_switchbank_settings_t =
        settings_bytes (switchbank_settings_restore st).plugin_settings := by
  rw [restore_eq]
  refine ⟨fun _ => rfl, ?_⟩
  show nvs_read (nvs_write st.nvs st.nvs_address _) st.nvs_address _ = _
  rw [← settings_bytes_length { function := fun _ => MCODE }, nvs_read_write]

/-- The state `switchbank_settings_load` reaches before it turns to the ports:
the record read from the store, or the defaults when the read fails. -/
theorem load_eq (st : State) :
    switchbank_settings_load st =
      (fun st2 : State =>
        if st2.can_map_ports && decide (st2.n_ports ≥ N_SWITCHBANK) then
          { st2 with
            port := claimedPort st2.claim_answer
            calls := st2.calls ++
              [HostCall.ioport_claim 3 "SwitchBank 3 pin",
               HostCall.ioport_claim 2 "SwitchBank 2 pin",
               HostCall.ioport_claim 1 "SwitchBank 1 pin",
               HostCall.ioport_claim 0 "SwitchBank 0 pin"] }
        else st2.call (.protocol_enqueue_rt_command .no_ports))
      (if st.nvs_transfer_ok st.nvs st.nvs_address sizeof_switchbank_settings_t then
        { st with
          plugin_settings :=
            settings_of_bytes (nvs_read st.nvs st.nvs_address sizeof_switchbank_settings_t)
          calls := st.calls ++
            [HostCall.memcpy_from_nvs st.nvs_address sizeof_switchbank_settings_t true] }
       else
        { st with
          plugin_settings := { function := fun _ => MCODE }
          nvs := nvs_write st.nvs st.nvs_address (settings_bytes { function := fun _ => MCODE })
          calls := st.calls ++
            [HostCall.memcpy_from_nvs st.nvs_address sizeof_switchbank_settings_t true,
             HostCall.memcpy_to_nvs st.nvs_address
               (settings_bytes { function := fun _ => MCODE }) true] }) := by
  unfold switchbank_settings_load
  simp only [load_claim_eq, restore_eq, State.call]
  by_cases hok : st.nvs_transfer_ok st.nvs st.nvs_address sizeof_switchbank_settings_t = true <;>
    by_cases hg : (st.can_map_ports && decide (st.n_ports ≥ N_SWITCHBANK)) = true <;>
    simp only [hok, hg, if_true, if_false, update_all_slots, List.append_assoc,
      List.singleton_append, Bool.false_eq_true] <;>
    rfl

/-- C8: `switchbank_settings_save` followed by `switchbank_settings_load` gives
back the record that was saved, whatever the in-memory record `r'` was changed
to in between, on a store that returns the bytes last written (the model of the
host's store) and reports `NVS_TransferResult_OK` for the read (`hok`).  A cell
is a 4-byte object (`hcells`). -/
theorem save_load_round_trip (st : State) (r' : switchbank_settings_t)
    (hcells : ∀ i, st.plugin_settings.function i < 2 ^ (8 * sizeof_aux_function_t))
    (hok : st.nvs_transfer_ok (switchbank_settings_save st).nvs st.nvs_address
      sizeof_switchbank_settings_t = true) :
    (switchbank_settings_load
        { switchbank_settings_save st with plugin_settings := r' }).plugin_settings =
      st.plugin_settings := by
  have hok' : st.nvs_transfer_ok (nvs_write st.nvs st.nvs_address
      (settings_bytes st.plugin_settings)) st.nvs_address sizeof_switchbank_settings_t = true :=
    hok
  have hread : nvs_read (nvs_write st.nvs st.nvs_address (settings_bytes st.plugin_settings))
      st.nvs_address sizeof_switchbank_settings_t = settings_bytes st.plugin_settings := by
    rw [← settings_bytes_length st.plugin_settings, nvs_read_write]
  rw [load_eq]
  simp only [switchbank_settings_save, State.memcpy_to_nvs, State.call, hok', if_true, hread,
    settings_of_bytes_bytes _ hcells]
  split <;> rfl

/-- Witness for C8: a running plugin with cells 1, 0, 3, 2 saves, has its
record overwritten with 7, 7, 7, 7, and loads. -/
theorem save_load_round_trip_witness :
    (switchbank_settings_load
        { switchbank_settings_save (running ![1, 0, 3, 2] ![0, 1, 2, 3]) with
          plugin_settings := { function := ![7, 7, 7, 7] } }).plugin_settings =
      (running ![1, 0, 3, 2] ![0, 1, 2, 3]).plugin_settings :=
  save_load_round_trip (running ![1, 0, 3, 2] ![0, 1, 2, 3]) { function := ![7, 7, 7, 7] }
    (by decide) rfl

/-- C10: port claiming in `switchbank_settings_load`.  When `can_map_ports` is
set and `n_ports >= N_SWITCHBANK`, the claims made are those of slots 3, 2, 1,
0 in this order, each asking for the port whose number is the slot index, all
four whatever the earlier ones returned; no callback is enqueued; afterwards
`port[i]` is the host's handle where the claim succeeded and `0xFF` where it
failed, so (handles being port numbers, never `0xFF`) exactly the failing slots
are marked.  Otherwise no claim is made, the port table is unchanged and
`no_ports` is enqueued exactly once. -/
theorem load_port_claiming (st : State) :
    (st.can_map_ports = true ∧ st.n_ports ≥ N_SWITCHBANK →
        (issued st (switchbank_settings_load st)).filter
            (fun c => c.isPortClaim || c.isEnqueue) =
          [HostCall.ioport_claim 3 "SwitchBank 3 pin",
           HostCall.ioport_claim 2 "SwitchBank 2 pin",
           HostCall.ioport_claim 1 "SwitchBank 1 pin",
           HostCall.ioport_claim 0 "SwitchBank 0 pin"] ∧
        (∀ i h, st.claim_answer i = some h → (switchbank_settings_load st).port i = h) ∧
        (∀ i, st.claim_answer i = none → (switchbank_settings_load st).port i = UNCLAIMED) ∧
        ((∀ i h, st.claim_answer i = some h → h ≠ UNCLAIMED) →
          ∀ i, (switchbank_settings_load st).port i = UNCLAIMED ↔ st.claim_answer i = none)) ∧
      (¬(st.can_map_ports = true ∧ st.n_ports ≥ N_SWITCHBANK) →
        (issued st (switchbank_settings_load st)).filter
            (fun c => c.isPortClaim || c.isEnqueue) =
          [HostCall.protocol_enqueue_rt_command rt_callback.no_ports] ∧
        (switchbank_settings_load st).port = st.port) := by
  constructor
  · rintro ⟨hmap, hn⟩
    have hport : (switchbank_settings_load st).port = claimedPort st.claim_answer := by
      rw [load_eq]
      by_cases hok : st.nvs_transfer_ok st.nvs st.nvs_address sizeof_switchbank_settings_t = true
      · simp [hok, hmap, hn]
      · simp [hok, hmap, hn]
    refine ⟨?_, ?_, ?_, ?_⟩
    · rw [load_eq]
      by_cases hok : st.nvs_transfer_ok st.nvs st.nvs_address sizeof_switchbank_settings_t = true
      · simp [hok, hmap, hn, issued, HostCall.isPortClaim, HostCall.isEnqueue, List.filter_cons]
      · simp [hok, hmap, hn, issued, HostCall.isPortClaim, HostCall.isEnqueue, List.filter_cons]
    · intro i h hi
      rw [hport]; simp [claimedPort, hi]
    · intro i hi
      rw [hport]; simp [claimedPort, hi]
    · intro hne i
      rw [hport]
      cases hi : st.claim_answer i with
      | none => simp [claimedPort, hi]
      | some h => simpa [claimedPort, hi] using hne i h hi
  · intro hgate
    have hg : (st.can_map_ports && decide (st.n_ports ≥ N_SWITCHBANK)) = false := by
      simpa using hgate
    rw [load_eq]
    by_cases hok : st.nvs_transfer_ok st.nvs st.nvs_address sizeof_switchbank_settings_t = true
    · simp [hok, hg, issued, State.call, HostCall.isPortClaim, HostCall.isEnqueue,
        List.filter_cons]
    · simp [hok, hg, issued, State.call, HostCall.isPortClaim, HostCall.isEnqueue,
        List.filter_cons]

/-- Witness for C10: after a successful `switchbank_init` on a host with 8
ports and explicit claiming, whose claim for slot 1 fails, `load` marks slot 1;
before `switchbank_init` (`can_map_ports` false) it only enqueues `no_ports`. -/
theorem load_port_claiming_witness :
    (switchbank_settings_load
        (switchbank_init (boot 8 true ![some 0, none, some 2, some 3] 100))).port 1 =
        UNCLAIMED ∧
      (issued (boot 8 true ![some 0, none, some 2, some 3] 100)
          (switchbank_settings_load (boot 8 true ![some 0, none, some 2, some 3] 100))).filter
          (fun c => c.isPortClaim || c.isEnqueue) =
        [HostCall.protocol_enqueue_rt_command rt_callback.no_ports] :=
  ⟨((load_port_claiming
      (switchbank_init (boot 8 true ![some 0, none, some 2, some 3] 100))).1
        ⟨by decide, by decide⟩).2.2.1 1 (by decide),
   ((load_port_claiming (boot 8 true ![some 0, none, some 2, some 3] 100)).2
      (by decide)).1⟩

/-! ## Initialisation: the claims -/

/-- C5: when `switchbank_init` fails because the host reports at most
`N_SWITCHBANK` output ports or because `nvs_alloc` returns 0, it does not call
`settings_register`, every handler slot of the host holds the handler it held
before the call, and the only callback enqueued is `warning_msg`, once. -/
theorem init_failure_registers_nothing (st : State)
    (h : st.ioports_available ≤ N_SWITCHBANK ∨ st.nvs_alloc = 0) :
    HostCall.settings_register ∉ issued st (switchbank_init st) ∧
      ((switchbank_init st).grbl_on_report_options = st.grbl_on_report_options ∧
        (switchbank_init st).grbl_on_execute_realtime = st.grbl_on_execute_realtime ∧
        (switchbank_init st).grbl_on_execute_delay = st.grbl_on_execute_delay ∧
        (switchbank_init st).grbl_on_spindle_programmed = st.grbl_on_spindle_programmed ∧
        (switchbank_init st).hal_coolant_set_state = st.hal_coolant_set_state ∧
        (switchbank_init st).hal_driver_reset = st.hal_driver_reset) ∧
      (issued st (switchbank_init st)).filter HostCall.isEnqueue =
        [HostCall.protocol_enqueue_rt_command rt_callback.warning_msg] := by
  unfold switchbank_init
  simp only [init_loop_eq, State.call]
  by_cases h1 : st.ioports_available % 256 > N_SWITCHBANK
  · have h0 : st.nvs_alloc = 0 := by
      rcases h with h | h
      · exact absurd (Nat.lt_of_lt_of_le h1 (Nat.le_trans (Nat.mod_le _ _) h)) (Nat.lt_irrefl _)
      · exact h
    by_cases h2 : st.ioport_can_claim_explicit = true
    · simp [h1, h2, h0, issued, HostCall.isEnqueue, List.filter_cons]
    · cases h3 : st.claim_answer 0 <;>
        simp [h1, h2, h3, h0, issued, HostCall.isEnqueue, List.filter_cons]
  · simp [h1, issued, HostCall.isEnqueue, List.filter_cons]

/-- Witness for C5: the spec's scenario, 3 ports available with 4 needed. -/
theorem init_failure_registers_nothing_witness :
    HostCall.settings_register ∉
        issued (boot 3 true (fun _ => none) 100)
          (switchbank_init (boot 3 true (fun _ => none) 100)) ∧
      (issued (boot 3 true (fun _ => none) 100)
          (switchbank_init (boot 3 true (fun _ => none) 100))).filter HostCall.isEnqueue =
        [HostCall.protocol_enqueue_rt_command rt_callback.warning_msg] :=
  ⟨(init_failure_registers_nothing (boot 3 true (fun _ => none) 100) (Or.inl (by decide))).1,
   (init_failure_registers_nothing (boot 3 true (fun _ => none) 100) (Or.inl (by decide))).2.2⟩

/-- The generic claims of `switchbank_init` for every pattern of answers (more
than `N_SWITCHBANK` ports, no explicit claiming, `nvs_alloc` not 0): all four
claims are made, `port[i]` is the handle or `0xFF`, and the settings are
registered exactly when the claim for slot 0, the last one, succeeded. -/
theorem init_generic_claims (st : State) (h1 : st.ioports_available % 256 > N_SWITCHBANK)
    (h2 : st.ioport_can_claim_explicit = false) (h3 : st.nvs_alloc ≠ 0) :
    (issued st (switchbank_init st)).filter HostCall.isPortClaim =
        [HostCall.ioport_claim (st.port 3) "Switchbank pin",
         HostCall.ioport_claim (st.port 2) "Switchbank pin",
         HostCall.ioport_claim (st.port 1) "Switchbank pin",
         HostCall.ioport_claim (st.port 0) "Switchbank pin"] ∧
      (switchbank_init st).port = claimedPort st.claim_answer ∧
      (HostCall.settings_register ∈ issued st (switchbank_init st) ↔
        (st.claim_answer 0).isSome = true) ∧
      (HostCall.protocol_enqueue_rt_command rt_callback.warning_msg ∈
          issued st (switchbank_init st) ↔
        st.claim_answer 0 = none) := by
  unfold switchbank_init
  simp only [init_loop_eq, State.call]
  cases h0 : st.claim_answer 0 <;>
    simp [h1, h2, h3, h0, issued, switchbank_init.register, State.call, HostCall.isPortClaim,
      List.filter_cons]

/-- C6, evaluated: on a host with 5 ports, no explicit claiming and a working
`nvs_alloc`, when the claims for slots 3, 2 and 1 succeed and the claim for
slot 0 (the last made) fails, `switchbank_init` makes all four claims, marks
slot 0 alone with `0xFF`, then enqueues `warning_msg`, registers nothing and
leaves the host's handler slots as they were.  When instead the claims for
slots 3, 2 and 1 fail and the claim for slot 0 succeeds, it registers the
settings and installs its handlers. -/
theorem init_last_claim_decides :
    issued (boot 5 false ![none, some 4, some 3, some 2] 100)
        (switchbank_init (boot 5 false ![none, some 4, some 3, some 2] 100)) =
        [HostCall.ioports_available, HostCall.ioport_can_claim_explicit,
         HostCall.ioport_claim 0 "Switchbank pin", HostCall.ioport_claim 0 "Switchbank pin",
         HostCall.ioport_claim 0 "Switchbank pin", HostCall.ioport_claim 0 "Switchbank pin",
         HostCall.protocol_enqueue_rt_command rt_callback.warning_msg] ∧
      (List.finRange N_SWITCHBANK).map
          (switchbank_init (boot 5 false ![none, some 4, some 3, some 2] 100)).port =
        [UNCLAIMED, 4, 3, 2] ∧
      (switchbank_init (boot 5 false ![none, some 4, some 3, some 2] 100)).grbl_on_spindle_programmed =
        fn_ptr.prior 4 ∧
      (switchbank_init (boot 5 false ![none, some 4, some 3, some 2] 100)).hal_coolant_set_state =
        fn_ptr.prior 5 ∧
      issued (boot 5 false ![some 4, none, none, none] 100)
        (switchbank_init (boot 5 false ![some 4, none, none, none] 100)) =
        [HostCall.ioports_available, HostCall.ioport_can_claim_explicit,
         HostCall.ioport_claim 0 "Switchbank pin", HostCall.ioport_claim 0 "Switchbank pin",
         HostCall.ioport_claim 0 "Switchbank pin", HostCall.ioport_claim 0 "Switchbank pin",
         HostCall.nvs_alloc 16, HostCall.settings_register] ∧
      (switchbank_init (boot 5 false ![some 4, none, none, none] 100)).grbl_on_spindle_programmed =
        fn_ptr.onSpindleProgrammed := by
  decide

/-! ## Settings table: the claim -/

/-- C4, evaluated: the labels of the radio-button format are, by index,
"M62-M65", "Spindle/Laser Enable(M3/M4)", "Flood Enable (M7)" and
"Mist Enable(M8)", while the enumerators are `MCODE` = 0, `SPINDLE_ACTIVE` = 1,
`COOLANT_MIST_ACTIVE` = 2 and `COOLANT_FLOOD_ACTIVE` = 3.  With slot 0 set to
the option labelled "Flood Enable (M7)" (value 2) and slot 3 to the option
labelled "Mist Enable(M8)" (value 3), a coolant event with flood on and mist
off drives slot 0 with the mist flag (`false`) and slot 3 with the flood flag
(`true`). -/
theorem flood_label_follows_mist_flag :
    (∀ d ∈ switchbank_settings,
        radio_labels d.format =
          ["M62-M65", "Spindle/Laser Enable(M3/M4)", "Flood Enable (M7)", "Mist Enable(M8)"]) ∧
      [MCODE, SPINDLE_ACTIVE, COOLANT_MIST_ACTIVE, COOLANT_FLOOD_ACTIVE] = [0, 1, 2, 3] ∧
      (issued (running ![2, 0, 0, 3] ![0, 1, 2, 3])
          (onCoolantSetState (running ![2, 0, 0, 3] ![0, 1, 2, 3])
            { flood := true, mist := false, other := 0 })).filter HostCall.isDigitalOut =
        [HostCall.digital_out 0 false, HostCall.digital_out 3 true] := by
  decide

end SwitchBank
